import Mathlib

/-!
Verification model of `source/operators/thumbnail/start_thumbnail.py` from the
media-insights-on-aws thumbnail operator.

The operator's `lambda_handler` extracts a few fields from the incoming workflow
event, builds one large MediaConvert `create_job` request (a static template in
which only the thumbnail frame-capture denominator, three destination path
strings and the input file location vary), submits it, and maps the synchronous
outcome onto a workflow status update.

The remote `create_job` call is modelled as an oracle parameter
`mc : CreateJobRequest → Except String String` returning either the stringified
exception message or the created job's id.  The workflow helper object
(`MediaInsightsOperationHelper`) is not part of the sources; its behaviour
(field extraction raising `KeyError`, status update, metadata attachment,
returning the output object) is modelled from the spec.
-/

/-- A JSON-like value, used to give the MediaConvert `Settings` payload its
exact shape.  All numbers occurring in the payload are integers. -/
inductive JVal where
  | str : String → JVal
  | num : Int → JVal
  | obj : List (String × JVal) → JVal
  | arr : List JVal → JVal

/-- Look a key up in an object's field list (first occurrence wins, as in a
Python dict literal where keys are unique). -/
def lookupField (k : String) : List (String × JVal) → Option JVal
  | [] => none
  | (k', v) :: rest => if k' = k then some v else lookupField k rest

/-- Fetch the value of key `k` when the value is an object. -/
def getKey (k : String) : JVal → Option JVal
  | .obj fields => lookupField k fields
  | _ => none

/-- Fetch element `i` when the value is an array. -/
def getIdx (i : Nat) : JVal → Option JVal
  | .arr elems => elems[i]?
  | _ => none

/-- Replace the value stored under key `k` (leaving other fields untouched). -/
def mapField (f : JVal → JVal) (k : String) : List (String × JVal) → List (String × JVal)
  | [] => []
  | (k', v) :: rest => if k' = k then (k', f v) :: rest else (k', v) :: mapField f k rest

/-- Apply `f` to the value of key `k` of an object (identity elsewhere). -/
def atKey (k : String) (f : JVal → JVal) : JVal → JVal
  | .obj fields => .obj (mapField f k fields)
  | j => j

/-- Apply `f` to element `i` of an array (identity elsewhere). -/
def mapElem (f : JVal → JVal) : Nat → List JVal → List JVal
  | _, [] => []
  | 0, v :: rest => f v :: rest
  | n + 1, v :: rest => v :: mapElem f n rest

/-- Apply `f` to element `i` of an array value (identity elsewhere). -/
def atIdx (i : Nat) (f : JVal → JVal) : JVal → JVal
  | .arr elems => .arr (mapElem f i elems)
  | j => j

/-- A scalar operator-configuration value, as found under
`"ThumbnailPosition"` in the workflow configuration: either already an
integer or a string that Python's `int()` may or may not accept. -/
inductive CVal where
  | vInt : Int → CVal
  | vStr : String → CVal

/-- Numeric value of a decimal digit character. -/
def digitVal (c : Char) : Option Nat :=
  if c.isDigit then some (c.toNat - 48) else none

/-- Parse the remaining digits of a Python base-10 integer literal, allowing a
single underscore between digits (`int("1_0") = 10`, `int("1__0")` raises). -/
def parseDigits : Nat → List Char → Option Nat
  | acc, [] => some acc
  | acc, '_' :: c :: rest =>
    match digitVal c with
    | some d => parseDigits (acc * 10 + d) rest
    | none => none
  | _, ['_'] => none
  | acc, c :: rest =>
    match digitVal c with
    | some d => parseDigits (acc * 10 + d) rest
    | none => none

/-- Strip whitespace characters from both ends of a character list (the
stripping `int()` performs on its string argument). -/
def stripSpaces (cs : List Char) : List Char :=
  ((cs.dropWhile Char.isWhitespace).reverse.dropWhile Char.isWhitespace).reverse

/-- Model of Python's `int(s)` on a string: surrounding whitespace stripped,
optional sign, then digits with optional single underscores between them;
anything else raises `ValueError` (modelled by `none`). -/
def pyIntOfStr (s : String) : Option Int :=
  match stripSpaces s.data with
  | '-' :: c :: rest =>
    (digitVal c).bind fun d => (parseDigits d rest).map fun n => -(n : Int)
  | '+' :: c :: rest =>
    (digitVal c).bind fun d => (parseDigits d rest).map fun n => (n : Int)
  | [c] =>
    (digitVal c).map fun d => (d : Int)
  | c :: rest =>
    (digitVal c).bind fun d => (parseDigits d rest).map fun n => (n : Int)
  | [] => none

/-- Model of Python's `int()` applied to a configuration value: an `int` is
returned unchanged, a string is parsed; `none` models the raised
`ValueError`. -/
def pyInt : CVal → Option Int
  | .vInt n => some n
  | .vStr s => pyIntOfStr s

/-- The inbound workflow invocation event, restricted to the fields the
handler reads.  Modelled from the spec: the helper raises `KeyError` for an
absent field, which `none` represents; `workflowExecutionId` stands for the
event's workflow execution id, `s3Bucket`/`s3Key` for
`input["Media"]["Video"]["S3Bucket"/"S3Key"]`, `assetId` for the optional
asset id, and `configuration` for the operator configuration map. -/
structure Event where
  workflowExecutionId : Option String
  s3Bucket : Option String
  s3Key : Option String
  assetId : Option String
  configuration : List (String × CVal)

/-- Process-wide configuration read from the environment at module load:
`DATAPLANE_BUCKET` and `mediaconvertRole`. -/
structure Env where
  dataplane_bucket : String
  mediaconvert_role : String

/-- Membership test of the `"ThumbnailPosition" in operator_object.configuration`
check: the configured value when the key is present. -/
def lookupConfig (cfg : List (String × CVal)) (k : String) : Option CVal :=
  match cfg with
  | [] => none
  | (k', v) :: rest => if k' = k then some v else lookupConfig rest k

/-- The output object of the workflow helper.  Modelled from the spec: the
updated workflow record carries a status string ("Executing" | "Error") and a
metadata map of key/value pairs. -/
structure OutputObject where
  workflowStatus : String
  metadata : List (String × String)
deriving DecidableEq

/-- The request handed to `create_job`: the service role and the `Settings`
payload. -/
structure CreateJobRequest where
  Role : String
  Settings : JVal

/-- Outcome of one handler invocation: a normal return carrying the output
object, a raised `MasExecutionError` carrying the output object, or an
unhandled Python exception (no output object, no status update). -/
inductive HandlerOutcome where
  | ok : OutputObject → HandlerOutcome
  | masError : OutputObject → HandlerOutcome
  | pyError : String → HandlerOutcome

/-- The per-invocation varying data extracted and derived by the handler
before the request is built (lines 53-76 of the source). -/
structure JobParams where
  workflow_id : String
  asset_id : String
  file_input : String
  audio_destination : String
  thumbnail_destination : String
  proxy_destination : String
  thumbnail_position : Int
deriving DecidableEq

/-- Result of the extraction/derivation phase: a missing required key (the
`KeyError` caught at lines 56-59, carrying `str(e)`), an unconvertible
`ThumbnailPosition` (the `ValueError` raised by `int()` at line 74, caught
nowhere), or the derived parameters. -/
inductive ExtractResult where
  | missing : String → ExtractResult
  | badPosition : CVal → ExtractResult
  | ok : JobParams → ExtractResult

/-- First output group of the `create_job` settings (source lines 86-121):
JPEG frame capture, numerator 1, denominator `thumbnail_position`, written to
`thumbnail_destination`. -/
def thumbnailOutputGroup (thumbnail_position : Int) (thumbnail_destination : String) : JVal :=
  .obj [
    ("CustomName", .str "thumbnail"),
    ("Name", .str "File Group"),
    ("Outputs", .arr [
      .obj [
        ("ContainerSettings", .obj [
          ("Container", .str "RAW")
        ]),
        ("VideoDescription", .obj [
          ("ScalingBehavior", .str "DEFAULT"),
          ("TimecodeInsertion", .str "DISABLED"),
          ("AntiAlias", .str "ENABLED"),
          ("Sharpness", .num 50),
          ("CodecSettings", .obj [
            ("Codec", .str "FRAME_CAPTURE"),
            ("FrameCaptureSettings", .obj [
              ("FramerateNumerator", .num 1),
              ("FramerateDenominator", .num thumbnail_position),
              ("MaxCaptures", .num 2),
              ("Quality", .num 80)
            ])
          ]),
          ("DropFrameTimecode", .str "ENABLED"),
          ("ColorMetadata", .str "INSERT")
        ]),
        ("Extension", .str "jpg"),
        ("NameModifier", .str "_thumbnail")
      ]
    ]),
    ("OutputGroupSettings", .obj [
      ("Type", .str "FILE_GROUP_SETTINGS"),
      ("FileGroupSettings", .obj [
        ("Destination", .str thumbnail_destination)
      ])
    ])
  ]

/-- Second output group of the `create_job` settings (source lines 122-160):
AAC audio extraction into MP4, written to `audio_destination`. -/
def audioOutputGroup (audio_destination : String) : JVal :=
  .obj [
    ("Name", .str "File Group"),
    ("Outputs", .arr [
      .obj [
        ("ContainerSettings", .obj [
          ("Container", .str "MP4"),
          ("Mp4Settings", .obj [
            ("CslgAtom", .str "INCLUDE"),
            ("FreeSpaceBox", .str "EXCLUDE"),
            ("MoovPlacement", .str "PROGRESSIVE_DOWNLOAD")
          ])
        ]),
        ("AudioDescriptions", .arr [
          .obj [
            ("AudioTypeControl", .str "FOLLOW_INPUT"),
            ("AudioSourceName", .str "Audio Selector 1"),
            ("CodecSettings", .obj [
              ("Codec", .str "AAC"),
              ("AacSettings", .obj [
                ("AudioDescriptionBroadcasterMix", .str "NORMAL"),
                ("Bitrate", .num 96000),
                ("RateControlMode", .str "CBR"),
                ("CodecProfile", .str "LC"),
                ("CodingMode", .str "CODING_MODE_2_0"),
                ("RawFormat", .str "NONE"),
                ("SampleRate", .num 48000),
                ("Specification", .str "MPEG4")
              ])
            ]),
            ("LanguageCodeControl", .str "FOLLOW_INPUT")
          ]
        ]),
        ("Extension", .str "mp4"),
        ("NameModifier", .str "_audio")
      ]
    ]),
    ("OutputGroupSettings", .obj [
      ("Type", .str "FILE_GROUP_SETTINGS"),
      ("FileGroupSettings", .obj [
        ("Destination", .str audio_destination)
      ])
    ])
  ]

/-- Third output group of the `create_job` settings (source lines 161-253):
the H.264 "proxy" encode into MP4, written to `proxy_destination`. -/
def proxyOutputGroup (proxy_destination : String) : JVal :=
  .obj [
    ("CustomName", .str "proxy"),
    ("Name", .str "File Group"),
    ("Outputs", .arr [
      .obj [
        ("VideoDescription", .obj [
          ("ScalingBehavior", .str "DEFAULT"),
          ("TimecodeInsertion", .str "DISABLED"),
          ("AntiAlias", .str "ENABLED"),
          ("Sharpness", .num 50),
          ("CodecSettings", .obj [
            ("Codec", .str "H_264"),
            ("H264Settings", .obj [
              ("InterlaceMode", .str "PROGRESSIVE"),
              ("NumberReferenceFrames", .num 3),
              ("Syntax", .str "DEFAULT"),
              ("Softness", .num 0),
              ("GopClosedCadence", .num 1),
              ("GopSize", .num 90),
              ("Slices", .num 1),
              ("GopBReference", .str "DISABLED"),
              ("SlowPal", .str "DISABLED"),
              ("SpatialAdaptiveQuantization", .str "ENABLED"),
              ("TemporalAdaptiveQuantization", .str "ENABLED"),
              ("FlickerAdaptiveQuantization", .str "DISABLED"),
              ("EntropyEncoding", .str "CABAC"),
              ("Bitrate", .num 1600000),
              ("FramerateControl", .str "SPECIFIED"),
              ("RateControlMode", .str "CBR"),
              ("CodecProfile", .str "MAIN"),
              ("Telecine", .str "NONE"),
              ("MinIInterval", .num 0),
              ("AdaptiveQuantization", .str "HIGH"),
              ("CodecLevel", .str "AUTO"),
              ("FieldEncoding", .str "PAFF"),
              ("SceneChangeDetect", .str "ENABLED"),
              ("QualityTuningLevel", .str "SINGLE_PASS"),
              ("FramerateConversionAlgorithm", .str "DUPLICATE_DROP"),
              ("UnregisteredSeiTimecode", .str "DISABLED"),
              ("GopSizeUnits", .str "FRAMES"),
              ("ParControl", .str "SPECIFIED"),
              ("NumberBFramesBetweenReferenceFrames", .num 2),
              ("RepeatPps", .str "DISABLED"),
              ("FramerateNumerator", .num 30),
              ("FramerateDenominator", .num 1),
              ("ParNumerator", .num 1),
              ("ParDenominator", .num 1)
            ])
          ]),
          ("AfdSignaling", .str "NONE"),
          ("DropFrameTimecode", .str "ENABLED"),
          ("RespondToAfd", .str "NONE"),
          ("ColorMetadata", .str "INSERT")
        ]),
        ("AudioDescriptions", .arr [
          .obj [
            ("AudioTypeControl", .str "FOLLOW_INPUT"),
            ("CodecSettings", .obj [
              ("Codec", .str "AAC"),
              ("AacSettings", .obj [
                ("AudioDescriptionBroadcasterMix", .str "NORMAL"),
                ("RateControlMode", .str "CBR"),
                ("CodecProfile", .str "LC"),
                ("CodingMode", .str "CODING_MODE_2_0"),
                ("RawFormat", .str "NONE"),
                ("SampleRate", .num 48000),
                ("Specification", .str "MPEG4"),
                ("Bitrate", .num 64000)
              ])
            ]),
            ("LanguageCodeControl", .str "FOLLOW_INPUT"),
            ("AudioSourceName", .str "Audio Selector 1")
          ]
        ]),
        ("ContainerSettings", .obj [
          ("Container", .str "MP4"),
          ("Mp4Settings", .obj [
            ("CslgAtom", .str "INCLUDE"),
            ("FreeSpaceBox", .str "EXCLUDE"),
            ("MoovPlacement", .str "PROGRESSIVE_DOWNLOAD")
          ])
        ]),
        ("Extension", .str "mp4"),
        ("NameModifier", .str "_proxy")
      ]
    ]),
    ("OutputGroupSettings", .obj [
      ("Type", .str "FILE_GROUP_SETTINGS"),
      ("FileGroupSettings", .obj [
        ("Destination", .str proxy_destination)
      ])
    ])
  ]

/-- One rendition of the Apple HLS ladder (source lines 257-426): the five
renditions are literal copies of this structure differing only in width,
height, maximum video bitrate and name modifier. -/
def hlsRendition (width height maxBitrate : Int) (nameModifier : String) : JVal :=
  .obj [
    ("ContainerSettings", .obj [
      ("Container", .str "M3U8"),
      ("M3u8Settings", .obj [])
    ]),
    ("VideoDescription", .obj [
      ("Width", .num width),
      ("Height", .num height),
      ("CodecSettings", .obj [
        ("Codec", .str "H_264"),
        ("H264Settings", .obj [
          ("MaxBitrate", .num maxBitrate),
          ("RateControlMode", .str "QVBR"),
          ("SceneChangeDetect", .str "TRANSITION_DETECTION")
        ])
      ])
    ]),
    ("AudioDescriptions", .arr [
      .obj [
        ("CodecSettings", .obj [
          ("Codec", .str "AAC"),
          ("AacSettings", .obj [
            ("Bitrate", .num 96000),
            ("CodingMode", .str "CODING_MODE_2_0"),
            ("SampleRate", .num 48000)
          ])
        ])
      ]
    ]),
    ("OutputSettings", .obj [
      ("HlsSettings", .obj [])
    ]),
    ("NameModifier", .str nameModifier)
  ]

/-- Fourth output group of the `create_job` settings (source lines 254-438):
the Apple HLS adaptive ladder, written to `proxy_destination`. -/
def hlsOutputGroup (proxy_destination : String) : JVal :=
  .obj [
    ("Name", .str "Apple HLS"),
    ("Outputs", .arr [
      hlsRendition 1920 1080 4000000 "_1080p",
      hlsRendition 1280 720 2500000 "_720ph",
      hlsRendition 1280 720 1500000 "_720pl",
      hlsRendition 960 540 1000000 "_540p",
      hlsRendition 640 360 600000 "_360p"
    ]),
    ("OutputGroupSettings", .obj [
      ("Type", .str "HLS_GROUP_SETTINGS"),
      ("HlsGroupSettings", .obj [
        ("SegmentLength", .num 6),
        ("Destination", .str proxy_destination),
        ("MinSegmentLength", .num 1),
        ("MinFinalSegmentLength", .num 1),
        ("SegmentControl", .str "SEGMENTED_FILES")
      ])
    ])
  ]

/-- The single input descriptor of the `create_job` settings (source lines
440-452). -/
def jobInputDescriptor (file_input : String) : JVal :=
  .obj [
    ("AudioSelectors", .obj [
      ("Audio Selector 1", .obj [
        ("Offset", .num 0),
        ("DefaultSelection", .str "DEFAULT"),
        ("ProgramSelection", .num 1)
      ])
    ]),
    ("VideoSelector", .obj [
      ("ColorSpace", .str "FOLLOW")
    ]),
    ("FileInput", .str file_input)
  ]

/-- The full `Settings` payload of the `create_job` call (source lines
84-453), parameterised by exactly the data that varies per invocation. -/
def jobSettings (thumbnail_position : Int)
    (thumbnail_destination audio_destination proxy_destination file_input : String) : JVal :=
  .obj [
    ("OutputGroups", .arr [
      thumbnailOutputGroup thumbnail_position thumbnail_destination,
      audioOutputGroup audio_destination,
      proxyOutputGroup proxy_destination,
      hlsOutputGroup proxy_destination
    ]),
    ("Inputs", .arr [jobInputDescriptor file_input])
  ]

/-- The `str(e)` of a Python `KeyError` on key `k`: the repr of the key,
i.e. the key in single quotes. -/
def keyErrorStr (k : String) : String :=
  "\x27" ++ k ++ "\x27"

/-- The message of the `ValueError` raised by `int()` on an unconvertible
value (only strings can be unconvertible here). -/
def invalidLiteralMsg : CVal → String
  | .vStr s => "invalid literal for int() with base 10: " ++ "\x27" ++ s ++ "\x27"
  | .vInt _ => ""

/-- Extraction and derivation phase of `lambda_handler` (source lines 52-76):
the three required fields are read in order (workflow execution id, source
bucket, source key) and the first missing one produces the `KeyError`; the
optional asset id falls back to the empty string; the three destination
prefixes and the input path are derived; `"ThumbnailPosition"` is converted
with `int()` when present and defaults to `7` when absent. -/
def extractJobParams (env : Env) (event : Event) : ExtractResult :=
  match event.workflowExecutionId with
  | none => .missing (keyErrorStr "WorkflowExecutionId")
  | some workflow_id =>
    match event.s3Bucket with
    | none => .missing (keyErrorStr "S3Bucket")
    | some input_bucket =>
      match event.s3Key with
      | none => .missing (keyErrorStr "S3Key")
      | some input_key =>
        let asset_id := event.assetId.getD ""
        let file_input := "s3://" ++ input_bucket ++ "/" ++ input_key
        let audio_destination :=
          "s3://" ++ env.dataplane_bucket ++ "/" ++ "private/assets/" ++ asset_id
            ++ "/workflows/" ++ workflow_id ++ "/"
        let thumbnail_destination :=
          "s3://" ++ env.dataplane_bucket ++ "/" ++ "private/assets/" ++ asset_id ++ "/"
        let proxy_destination :=
          "s3://" ++ env.dataplane_bucket ++ "/" ++ "private/assets/" ++ asset_id ++ "/"
        match lookupConfig event.configuration "ThumbnailPosition" with
        | some v =>
          match pyInt v with
          | none => .badPosition v
          | some n =>
            .ok ⟨workflow_id, asset_id, file_input, audio_destination,
                 thumbnail_destination, proxy_destination, n⟩
        | none =>
          .ok ⟨workflow_id, asset_id, file_input, audio_destination,
               thumbnail_destination, proxy_destination, 7⟩

/-- The `create_job` request built from the derived parameters (source lines
82-453). -/
def requestOf (env : Env) (p : JobParams) : CreateJobRequest :=
  { Role := env.mediaconvert_role,
    Settings := jobSettings p.thumbnail_position p.thumbnail_destination
      p.audio_destination p.proxy_destination p.file_input }

/-- Submission phase of `lambda_handler` (source lines 81-466): the remote
call's exception is caught, stringified into `ThumbnailError` metadata and the
workflow status set to "Error" before `MasExecutionError` is raised; on
success the workflow status becomes "Executing" and the job id, input file,
asset id and workflow execution id are attached as metadata. -/
def submitJob (env : Env) (mc : CreateJobRequest → Except String String)
    (p : JobParams) : HandlerOutcome :=
  match mc (requestOf env p) with
  | .error e =>
    .masError { workflowStatus := "Error", metadata := [("ThumbnailError", e)] }
  | .ok job_id =>
    .ok { workflowStatus := "Executing",
          metadata := [("MediaconvertJobId", job_id),
                       ("MediaconvertInputFile", p.file_input),
                       ("AssetId", p.asset_id),
                       ("WorkflowExecutionId", p.workflow_id)] }

/-- Model of `lambda_handler` (source lines 48-466).  A missing required key
yields the "Error" status and the `ThumbnailError` metadata of lines 57-59 and
raises; an unconvertible `"ThumbnailPosition"` propagates the `ValueError` of
line 74 unhandled; otherwise the job is submitted via the oracle `mc`. -/
def lambda_handler (env : Env) (mc : CreateJobRequest → Except String String)
    (event : Event) : HandlerOutcome :=
  match extractJobParams env event with
  | .missing k =>
    .masError { workflowStatus := "Error",
                metadata := [("ThumbnailError", "Missing a required metadata key " ++ k)] }
  | .badPosition v => .pyError (invalidLiteralMsg v)
  | .ok p => submitJob env mc p

/-- The frame-capture framerate numerator stored in a `Settings` payload. -/
def fcNumerator (settings : JVal) : Option JVal :=
  (getKey "OutputGroups" settings).bind (getIdx 0) |>.bind (getKey "Outputs")
    |>.bind (getIdx 0) |>.bind (getKey "VideoDescription")
    |>.bind (getKey "CodecSettings") |>.bind (getKey "FrameCaptureSettings")
    |>.bind (getKey "FramerateNumerator")

/-- The frame-capture framerate denominator stored in a `Settings` payload. -/
def fcDenominator (settings : JVal) : Option JVal :=
  (getKey "OutputGroups" settings).bind (getIdx 0) |>.bind (getKey "Outputs")
    |>.bind (getIdx 0) |>.bind (getKey "VideoDescription")
    |>.bind (getKey "CodecSettings") |>.bind (getKey "FrameCaptureSettings")
    |>.bind (getKey "FramerateDenominator")

/-- Replace the six per-invocation leaves of a `Settings` payload (the
frame-capture denominator, the three file-group destinations, the HLS
destination and the file input) by a fixed placeholder, leaving every other
field untouched. -/
def maskSettings (settings : JVal) : JVal :=
  settings
  |> atKey "OutputGroups" (atIdx 0 (atKey "Outputs" (atIdx 0 (atKey "VideoDescription"
       (atKey "CodecSettings" (atKey "FrameCaptureSettings"
         (atKey "FramerateDenominator" (fun _ => .str "#"))))))))
  |> atKey "OutputGroups" (atIdx 0 (atKey "OutputGroupSettings"
       (atKey "FileGroupSettings" (atKey "Destination" (fun _ => .str "#")))))
  |> atKey "OutputGroups" (atIdx 1 (atKey "OutputGroupSettings"
       (atKey "FileGroupSettings" (atKey "Destination" (fun _ => .str "#")))))
  |> atKey "OutputGroups" (atIdx 2 (atKey "OutputGroupSettings"
       (atKey "FileGroupSettings" (atKey "Destination" (fun _ => .str "#")))))
  |> atKey "OutputGroups" (atIdx 3 (atKey "OutputGroupSettings"
       (atKey "HlsGroupSettings" (atKey "Destination" (fun _ => .str "#")))))
  |> atKey "Inputs" (atIdx 0 (atKey "FileInput" (fun _ => .str "#")))

/-- `k` is the name of a required field genuinely absent from the event. -/
def namesMissingField (event : Event) (k : String) : Prop :=
  (k = "WorkflowExecutionId" ∧ event.workflowExecutionId = none) ∨
  (k = "S3Bucket" ∧ event.s3Bucket = none) ∨
  (k = "S3Key" ∧ event.s3Key = none)

/-- The two terminal states the spec allows for an invocation: a normal
return with workflow status "Executing", or a raised `MasExecutionError`
carrying workflow status "Error". -/
def TwoOutcomes (r : HandlerOutcome) : Prop :=
  (∃ o, r = HandlerOutcome.ok o ∧ o.workflowStatus = "Executing") ∨
  (∃ o, r = HandlerOutcome.masError o ∧ o.workflowStatus = "Error")

/-- A concrete environment used by the witnesses. -/
def sampleEnv : Env := ⟨"dataplane-bucket", "mediaconvert-role"⟩

/-- An oracle whose `create_job` always succeeds with job id "abc123". -/
def okMc : CreateJobRequest → Except String String := fun _ => .ok "abc123"

/-- An oracle whose `create_job` always raises an error whose message is
"AccessDenied". -/
def errMc : CreateJobRequest → Except String String := fun _ => .error "AccessDenied"

/-- The scenario event of the spec: bucket "input-bucket", key
"videos/a.mp4", workflow id "wf-1", asset id "asset-1", no configuration. -/
def validEvent : Event :=
  ⟨some "wf-1", some "input-bucket", some "videos/a.mp4", some "asset-1", []⟩

/-- `validEvent` with the source bucket absent. -/
def missingBucketEvent : Event :=
  ⟨some "wf-1", none, some "videos/a.mp4", some "asset-1", []⟩

/-- `validEvent` with the asset id absent. -/
def noAssetEvent : Event :=
  ⟨some "wf-1", some "input-bucket", some "videos/a.mp4", none, []⟩

/-- `validEvent` with an unconvertible `"ThumbnailPosition"` value. -/
def badPositionEvent : Event :=
  ⟨some "wf-1", some "input-bucket", some "videos/a.mp4", some "asset-1",
   [("ThumbnailPosition", .vStr "unconfigured")]⟩

/-- `validEvent` with `"ThumbnailPosition"` configured to the integer 12. -/
def positionedEvent : Event :=
  ⟨some "wf-1", some "input-bucket", some "videos/a.mp4", some "asset-1",
   [("ThumbnailPosition", .vInt 12)]⟩

/-- The parameters the handler derives from `validEvent` under `sampleEnv`. -/
def validParams : JobParams :=
  ⟨"wf-1", "asset-1", "s3://input-bucket/videos/a.mp4",
   "s3://dataplane-bucket/private/assets/asset-1/workflows/wf-1/",
   "s3://dataplane-bucket/private/assets/asset-1/",
   "s3://dataplane-bucket/private/assets/asset-1/", 7⟩

/-- `validParams` with thumbnail position 12 (derived from `positionedEvent`). -/
def positionedParams : JobParams :=
  { validParams with thumbnail_position := 12 }

theorem strAppendAssoc (a b c : String) : a ++ b ++ c = a ++ (b ++ c) := by
  rcases a with ⟨a⟩; rcases b with ⟨b⟩; rcases c with ⟨c⟩
  show String.mk (a ++ b ++ c) = String.mk (a ++ (b ++ c))
  rw [List.append_assoc]

theorem extract_ok_inversion (env : Env) (event : Event) (p : JobParams)
    (h : extractJobParams env event = .ok p) :
    ∃ w b k, event.workflowExecutionId = some w ∧ event.s3Bucket = some b ∧
      event.s3Key = some k ∧
      p.workflow_id = w ∧
      p.asset_id = event.assetId.getD "" ∧
      p.file_input = "s3://" ++ b ++ "/" ++ k ∧
      p.audio_destination = "s3://" ++ env.dataplane_bucket ++ "/" ++ "private/assets/"
        ++ p.asset_id ++ "/workflows/" ++ w ++ "/" ∧
      p.thumbnail_destination = "s3://" ++ env.dataplane_bucket ++ "/" ++ "private/assets/"
        ++ p.asset_id ++ "/" ∧
      p.proxy_destination = "s3://" ++ env.dataplane_bucket ++ "/" ++ "private/assets/"
        ++ p.asset_id ++ "/" ∧
      ((lookupConfig event.configuration "ThumbnailPosition" = none ∧
          p.thumbnail_position = 7) ∨
        (∃ v, lookupConfig event.configuration "ThumbnailPosition" = some v ∧
          pyInt v = some p.thumbnail_position)) := by
  obtain ⟨wid, bkt, ky, aid, cfg⟩ := event
  cases wid with
  | none => simp [extractJobParams] at h
  | some w =>
    cases bkt with
    | none => simp [extractJobParams] at h
    | some b =>
      cases ky with
      | none => simp [extractJobParams] at h
      | some k =>
        refine ⟨w, b, k, rfl, rfl, rfl, ?_⟩
        rcases hc : lookupConfig cfg "ThumbnailPosition" with _ | v
        · simp only [extractJobParams, hc] at h
          cases h
          exact ⟨rfl, rfl, rfl, rfl, rfl, rfl, Or.inl ⟨rfl, rfl⟩⟩
        · rcases hv : pyInt v with _ | n
          · simp only [extractJobParams, hc, hv] at h
            exact ExtractResult.noConfusion h
          · simp only [extractJobParams, hc, hv] at h
            cases h
            exact ⟨rfl, rfl, rfl, rfl, rfl, rfl, Or.inr ⟨v, rfl, hv⟩⟩

theorem extract_badPosition_inversion (env : Env) (event : Event) (v : CVal)
    (h : extractJobParams env event = .badPosition v) :
    lookupConfig event.configuration "ThumbnailPosition" = some v ∧ pyInt v = none := by
  obtain ⟨wid, bkt, ky, aid, cfg⟩ := event
  cases wid with
  | none => simp [extractJobParams] at h
  | some w =>
    cases bkt with
    | none => simp [extractJobParams] at h
    | some b =>
      cases ky with
      | none => simp [extractJobParams] at h
      | some k =>
        rcases hc : lookupConfig cfg "ThumbnailPosition" with _ | w'
        · simp only [extractJobParams, hc] at h
          exact ExtractResult.noConfusion h
        · rcases hv : pyInt w' with _ | n
          · simp only [extractJobParams, hc, hv] at h
            injection h with h
            subst h
            exact ⟨rfl, hv⟩
          · simp only [extractJobParams, hc, hv] at h
            exact ExtractResult.noConfusion h

/-- C1: for every input event missing the source bucket, the source object
key, or the workflow execution id, the handler sets the workflow status to
"Error", attaches metadata naming the missing field, and raises
`MasExecutionError` with an outcome independent of the remote oracle (no
remote submission call is attempted). -/
theorem C1_missing_required_field (env : Env)
    (mc : CreateJobRequest → Except String String) (event : Event)
    (h : event.workflowExecutionId = none ∨ event.s3Bucket = none ∨ event.s3Key = none) :
    ∃ k, namesMissingField event k ∧
      lambda_handler env mc event = .masError
        { workflowStatus := "Error",
          metadata := [("ThumbnailError",
            "Missing a required metadata key " ++ keyErrorStr k)] } ∧
      ∀ mc', lambda_handler env mc' event = lambda_handler env mc event := by
  obtain ⟨wid, bkt, ky, aid, cfg⟩ := event
  cases wid with
  | none => exact ⟨"WorkflowExecutionId", Or.inl ⟨rfl, rfl⟩, rfl, fun _ => rfl⟩
  | some w =>
    cases bkt with
    | none => exact ⟨"S3Bucket", Or.inr (Or.inl ⟨rfl, rfl⟩), rfl, fun _ => rfl⟩
    | some b =>
      cases ky with
      | none => exact ⟨"S3Key", Or.inr (Or.inr ⟨rfl, rfl⟩), rfl, fun _ => rfl⟩
      | some k => rcases h with h | h | h <;> exact Option.noConfusion h

/-- Witness for C1 at the concrete event whose source bucket is absent. -/
theorem C1_missing_required_field_witness :
    ∃ k, namesMissingField missingBucketEvent k ∧
      lambda_handler sampleEnv okMc missingBucketEvent = .masError
        { workflowStatus := "Error",
          metadata := [("ThumbnailError",
            "Missing a required metadata key " ++ keyErrorStr k)] } ∧
      ∀ mc', lambda_handler sampleEnv mc' missingBucketEvent
        = lambda_handler sampleEnv okMc missingBucketEvent :=
  C1_missing_required_field sampleEnv okMc missingBucketEvent (Or.inr (Or.inl rfl))

/-- C3: for every input on which the remote create-job call succeeds and
returns a job identifier, the handler returns normally with workflow status
"Executing" and metadata carrying the job id, the input file path, the asset
id and the workflow execution id. -/
theorem C3_success_outcome (env : Env)
    (mc : CreateJobRequest → Except String String) (event : Event)
    (p : JobParams) (job_id : String)
    (h1 : extractJobParams env event = .ok p)
    (h2 : mc (requestOf env p) = .ok job_id) :
    lambda_handler env mc event = .ok
      { workflowStatus := "Executing",
        metadata := [("MediaconvertJobId", job_id),
                     ("MediaconvertInputFile", p.file_input),
                     ("AssetId", p.asset_id),
                     ("WorkflowExecutionId", p.workflow_id)] } := by
  simp [lambda_handler, h1, submitJob, h2]

/-- Witness for C3 at the concrete scenario event with an oracle returning
job id "abc123". -/
theorem C3_success_outcome_witness :
    lambda_handler sampleEnv okMc validEvent = .ok
      { workflowStatus := "Executing",
        metadata := [("MediaconvertJobId", "abc123"),
                     ("MediaconvertInputFile", validParams.file_input),
                     ("AssetId", validParams.asset_id),
                     ("WorkflowExecutionId", validParams.workflow_id)] } :=
  C3_success_outcome sampleEnv okMc validEvent validParams "abc123" rfl rfl

/-- C4: for every input on which the remote create-job call raises any
error, the handler sets the workflow status to "Error", stores the
stringified error in the `ThumbnailError` metadata field, and raises
`MasExecutionError` rather than returning normally. -/
theorem C4_submission_failure (env : Env)
    (mc : CreateJobRequest → Except String String) (event : Event)
    (p : JobParams) (e : String)
    (h1 : extractJobParams env event = .ok p)
    (h2 : mc (requestOf env p) = .error e) :
    lambda_handler env mc event = .masError
      { workflowStatus := "Error", metadata := [("ThumbnailError", e)] } := by
  simp [lambda_handler, h1, submitJob, h2]

/-- Witness for C4 at the concrete scenario event with an oracle raising
"AccessDenied". -/
theorem C4_submission_failure_witness :
    lambda_handler sampleEnv errMc validEvent = .masError
      { workflowStatus := "Error", metadata := [("ThumbnailError", "AccessDenied")] } :=
  C4_submission_failure sampleEnv errMc validEvent validParams "AccessDenied" rfl rfl

/-- C2: for every valid input, the constructed job request's frame-capture
numerator equals 1 and its denominator equals the converted
`"ThumbnailPosition"` configuration value when that key is present, and 7
when it is absent. -/
theorem C2_thumbnail_capture_rate (env : Env) (event : Event) (p : JobParams)
    (h : extractJobParams env event = .ok p) :
    fcNumerator (requestOf env p).Settings = some (.num 1) ∧
    fcDenominator (requestOf env p).Settings = some (.num p.thumbnail_position) ∧
    (lookupConfig event.configuration "ThumbnailPosition" = none →
      p.thumbnail_position = 7) ∧
    (∀ v, lookupConfig event.configuration "ThumbnailPosition" = some v →
      pyInt v = some p.thumbnail_position) := by
  rcases extract_ok_inversion env event p h with
    ⟨w, b, k, _, _, _, _, _, _, _, _, _, hpos⟩
  refine ⟨rfl, rfl, ?_, ?_⟩
  · intro hnone
    rcases hpos with ⟨_, h7⟩ | ⟨v, hv, _⟩
    · exact h7
    · rw [hnone] at hv; exact Option.noConfusion hv
  · intro v hv
    rcases hpos with ⟨hn, _⟩ | ⟨v', hv', hp⟩
    · rw [hn] at hv; exact Option.noConfusion hv
    · rw [hv] at hv'
      injection hv' with e
      subst e
      exact hp

/-- Witness for C2 at the concrete event configured with
`"ThumbnailPosition" = 12`. -/
theorem C2_thumbnail_capture_rate_witness :
    fcNumerator (requestOf sampleEnv positionedParams).Settings = some (.num 1) ∧
    fcDenominator (requestOf sampleEnv positionedParams).Settings
      = some (.num positionedParams.thumbnail_position) ∧
    (lookupConfig positionedEvent.configuration "ThumbnailPosition" = none →
      positionedParams.thumbnail_position = 7) ∧
    (∀ v, lookupConfig positionedEvent.configuration "ThumbnailPosition" = some v →
      pyInt v = some positionedParams.thumbnail_position) :=
  C2_thumbnail_capture_rate sampleEnv positionedEvent positionedParams rfl

/-- C5: for every input in which the asset id is absent, the handler behaves
exactly as if the asset id were the empty string; when extraction succeeds
the three destination prefixes contain the empty string in place of the
asset id, and the handler proceeds to the submission phase. -/
theorem C5_absent_asset_id (env : Env)
    (mc : CreateJobRequest → Except String String) (event : Event)
    (h : event.assetId = none) :
    extractJobParams env event = extractJobParams env { event with assetId := some "" } ∧
    ∀ p, extractJobParams env event = .ok p →
      p.asset_id = "" ∧
      p.thumbnail_destination = "s3://" ++ env.dataplane_bucket ++ "/private/assets//" ∧
      p.proxy_destination = "s3://" ++ env.dataplane_bucket ++ "/private/assets//" ∧
      p.audio_destination = "s3://" ++ env.dataplane_bucket ++ "/private/assets//workflows/"
        ++ p.workflow_id ++ "/" ∧
      lambda_handler env mc event = submitJob env mc p := by
  obtain ⟨wid, bkt, ky, aid, cfg⟩ := event
  simp only at h
  subst h
  constructor
  · cases wid with
    | none => rfl
    | some w =>
      cases bkt with
      | none => rfl
      | some b =>
        cases ky with
        | none => rfl
        | some k => rfl
  · intro p hp
    rcases extract_ok_inversion env _ p hp with
      ⟨w, b, k, _, _, _, hwid, ha, _, haud, hth, hpr, _⟩
    simp only [Option.getD] at ha
    refine ⟨ha, ?_, ?_, ?_, ?_⟩
    · rw [hth, ha]; simp only [strAppendAssoc]; rfl
    · rw [hpr, ha]; simp only [strAppendAssoc]; rfl
    · rw [haud, ha]
      have h2 : ("/private/assets//workflows/" : String)
        = "/" ++ ("private/assets/" ++ ("" ++ "/workflows/")) := rfl
      rw [h2, hwid]
      simp only [strAppendAssoc]
    · simp [lambda_handler, hp]

/-- Witness for C5 at the concrete event with no asset id. -/
theorem C5_absent_asset_id_witness :
    extractJobParams sampleEnv noAssetEvent
      = extractJobParams sampleEnv { noAssetEvent with assetId := some "" } ∧
    ∀ p, extractJobParams sampleEnv noAssetEvent = .ok p →
      p.asset_id = "" ∧
      p.thumbnail_destination = "s3://" ++ sampleEnv.dataplane_bucket ++ "/private/assets//" ∧
      p.proxy_destination = "s3://" ++ sampleEnv.dataplane_bucket ++ "/private/assets//" ∧
      p.audio_destination = "s3://" ++ sampleEnv.dataplane_bucket ++ "/private/assets//workflows/"
        ++ p.workflow_id ++ "/" ∧
      lambda_handler sampleEnv okMc noAssetEvent = submitJob sampleEnv okMc p :=
  C5_absent_asset_id sampleEnv okMc noAssetEvent rfl

/-- C6: in the spec's scenario (bucket "input-bucket", key "videos/a.mp4",
workflow id "wf-1", asset id "asset-1", no thumbnail position configured),
the three destinations resolve to the bucket-scoped
"private/assets/asset-1/" paths (the audio destination additionally ending
in "workflows/wf-1/"), and the frame-capture denominator equals 7. -/
theorem C6_scenario (env : Env) :
    ∃ p, extractJobParams env validEvent = .ok p ∧
      p.thumbnail_destination = "s3://" ++ env.dataplane_bucket ++ "/private/assets/asset-1/" ∧
      p.proxy_destination = "s3://" ++ env.dataplane_bucket ++ "/private/assets/asset-1/" ∧
      p.audio_destination
        = "s3://" ++ env.dataplane_bucket ++ "/private/assets/asset-1/workflows/wf-1/" ∧
      p.thumbnail_position = 7 ∧
      fcDenominator (requestOf env p).Settings = some (.num 7) := by
  refine ⟨⟨"wf-1", "asset-1", "s3://input-bucket/videos/a.mp4",
    "s3://" ++ env.dataplane_bucket ++ "/" ++ "private/assets/" ++ "asset-1"
      ++ "/workflows/" ++ "wf-1" ++ "/",
    "s3://" ++ env.dataplane_bucket ++ "/" ++ "private/assets/" ++ "asset-1" ++ "/",
    "s3://" ++ env.dataplane_bucket ++ "/" ++ "private/assets/" ++ "asset-1" ++ "/", 7⟩,
    rfl, ?_, ?_, ?_, rfl, rfl⟩
  · show "s3://" ++ env.dataplane_bucket ++ "/" ++ "private/assets/" ++ "asset-1" ++ "/"
      = "s3://" ++ env.dataplane_bucket ++ "/private/assets/asset-1/"
    simp only [strAppendAssoc]; rfl
  · show "s3://" ++ env.dataplane_bucket ++ "/" ++ "private/assets/" ++ "asset-1" ++ "/"
      = "s3://" ++ env.dataplane_bucket ++ "/private/assets/asset-1/"
    simp only [strAppendAssoc]; rfl
  · show "s3://" ++ env.dataplane_bucket ++ "/" ++ "private/assets/" ++ "asset-1"
      ++ "/workflows/" ++ "wf-1" ++ "/"
      = "s3://" ++ env.dataplane_bucket ++ "/private/assets/asset-1/workflows/wf-1/"
    simp only [strAppendAssoc]; rfl

/-- C7 (counterexample): the claim that every invocation ends either as a
normal return with status "Executing" or as a failure with status "Error" is
false: with an unconvertible `"ThumbnailPosition"` the handler ends in a
third state, an unhandled conversion error with no status update. -/
theorem C7_third_outcome_counterexample :
    ¬ TwoOutcomes (lambda_handler sampleEnv okMc badPositionEvent) := by
  intro h
  have he : lambda_handler sampleEnv okMc badPositionEvent
      = HandlerOutcome.pyError (invalidLiteralMsg (CVal.vStr "unconfigured")) := rfl
  rcases h with ⟨o, ho, _⟩ | ⟨o, ho, _⟩ <;> rw [he] at ho <;>
    exact HandlerOutcome.noConfusion ho

/-- C7 (amended): for every input whose `"ThumbnailPosition"` configuration
value, when present, converts to an integer, the handler's outcome is
exactly one of two states: a normal return with workflow status "Executing",
or a raised `MasExecutionError` with workflow status "Error". -/
theorem C7_two_outcomes (env : Env)
    (mc : CreateJobRequest → Except String String) (event : Event)
    (h : ∀ v, lookupConfig event.configuration "ThumbnailPosition" = some v →
      (pyInt v).isSome) :
    TwoOutcomes (lambda_handler env mc event) := by
  rcases he : extractJobParams env event with k | v | p
  · right
    refine ⟨⟨"Error", [("ThumbnailError", "Missing a required metadata key " ++ k)]⟩, ?_, rfl⟩
    simp [lambda_handler, he]
  · rcases extract_badPosition_inversion env event v he with ⟨hc, hv⟩
    have hs := h v hc
    rw [hv] at hs
    exact absurd hs (by simp)
  · rcases hmc : mc (requestOf env p) with e | jid
    · right
      refine ⟨⟨"Error", [("ThumbnailError", e)]⟩, ?_, rfl⟩
      simp [lambda_handler, he, submitJob, hmc]
    · left
      refine ⟨⟨"Executing", [("MediaconvertJobId", jid),
        ("MediaconvertInputFile", p.file_input), ("AssetId", p.asset_id),
        ("WorkflowExecutionId", p.workflow_id)]⟩, ?_, rfl⟩
      simp [lambda_handler, he, submitJob, hmc]

/-- Witness for the amended C7 at the concrete scenario event. -/
theorem C7_two_outcomes_witness :
    TwoOutcomes (lambda_handler sampleEnv okMc validEvent) :=
  C7_two_outcomes sampleEnv okMc validEvent
    (fun v h => by simp [validEvent, lookupConfig] at h)

/-- C8: any two constructed job requests agree on the service role and on
every field outside the six per-invocation leaves (the frame-capture
denominator, the three destination paths — the proxy one occurring twice —
and the input file location): masking those leaves makes the requests
identical, so all other fields are fixed constants. -/
theorem C8_static_request_template (env : Env) (p q : JobParams) :
    (requestOf env p).Role = (requestOf env q).Role ∧
    maskSettings (requestOf env p).Settings = maskSettings (requestOf env q).Settings :=
  ⟨rfl, rfl⟩

/-- C9: for every input, the thumbnail and proxy/streaming destination
prefixes are equal, and the audio destination is the thumbnail destination
with "workflows/<workflow id>/" appended. -/
theorem C9_destination_prefix_relation (env : Env) (event : Event) (p : JobParams)
    (h : extractJobParams env event = .ok p) :
    p.thumbnail_destination = p.proxy_destination ∧
    p.audio_destination
      = p.thumbnail_destination ++ "workflows/" ++ p.workflow_id ++ "/" := by
  rcases extract_ok_inversion env event p h with
    ⟨w, b, k, _, _, _, hwid, _, _, haud, hth, hpr, _⟩
  constructor
  · rw [hth, hpr]
  · rw [haud, hth, hwid]
    have h2 : ("/workflows/" : String) = "/" ++ "workflows/" := rfl
    rw [h2]
    simp only [strAppendAssoc]

/-- Witness for C9 at the concrete scenario event. -/
theorem C9_destination_prefix_relation_witness :
    validParams.thumbnail_destination = validParams.proxy_destination ∧
    validParams.audio_destination
      = validParams.thumbnail_destination ++ "workflows/" ++ validParams.workflow_id ++ "/" :=
  C9_destination_prefix_relation sampleEnv validEvent validParams rfl

/-- C10: for every input whose required fields are present and whose
`"ThumbnailPosition"` configuration value cannot be converted to an integer,
the handler ends in the unhandled conversion error — no workflow status is
set, no error metadata is attached, and the outcome is independent of the
remote oracle (no remote call is made). -/
theorem C10_unconvertible_position (env : Env)
    (mc : CreateJobRequest → Except String String) (event : Event)
    (w b k : String) (v : CVal)
    (h1 : event.workflowExecutionId = some w) (h2 : event.s3Bucket = some b)
    (h3 : event.s3Key = some k)
    (h4 : lookupConfig event.configuration "ThumbnailPosition" = some v)
    (h5 : pyInt v = none) :
    lambda_handler env mc event = .pyError (invalidLiteralMsg v) ∧
    ∀ mc', lambda_handler env mc' event = lambda_handler env mc event := by
  obtain ⟨wid, bkt, ky, aid, cfg⟩ := event
  cases wid with
  | none => simp at h1
  | some w' =>
    cases bkt with
    | none => simp at h2
    | some b' =>
      cases ky with
      | none => simp at h3
      | some k' =>
        dsimp only at h4
        constructor
        · simp [lambda_handler, extractJobParams, h4, h5]
        · intro mc'
          simp [lambda_handler, extractJobParams, h4, h5]

/-- Witness for C10 at the concrete event configured with the unconvertible
value "unconfigured". -/
theorem C10_unconvertible_position_witness :
    lambda_handler sampleEnv okMc badPositionEvent
      = .pyError (invalidLiteralMsg (CVal.vStr "unconfigured")) ∧
    ∀ mc', lambda_handler sampleEnv mc' badPositionEvent
      = lambda_handler sampleEnv okMc badPositionEvent :=
  C10_unconvertible_position sampleEnv okMc badPositionEvent
    "wf-1" "input-bucket" "videos/a.mp4" (CVal.vStr "unconfigured")
    rfl rfl rfl rfl (by decide)
